import Mathlib

/-!
Verification of the contact-management backend (FastAPI + SQLAlchemy service).

The database tables are shallowly embedded as Lean lists of row structures, and
each repository / router function is translated into a pure Lean function over
those lists.  Dates are modelled as day ordinals (`Nat`), UUID primary keys as
`Nat`, and the bcrypt / JWT / Redis primitives as abstract function parameters;
everything else follows the Python source line by line.
-/

namespace ContactsApp

/-- A stored user row (`UserModel` in `src/models/users.py`): identity, hashed
password, confirmation flag and nullable avatar URL. -/
structure UserModel where
  id : Nat
  username : String
  password : String
  confirmed : Bool
  avatar : Option String
deriving Repr, DecidableEq

/-- A stored contact row (`ContactModel` in `src/models/contact.py`).  The
`user_id` column is a nullable foreign key to the owning user; `birthday` is a
nullable SQL `Date`, modelled as a day ordinal. -/
structure ContactModel where
  id : Nat
  name : String
  surname : String
  email : String
  phone : String
  birthday : Option Nat
  notes : String
  is_favorite : Bool
  user_id : Option Nat
deriving Repr, DecidableEq

/-- A stored refresh-token row (`TokenModel` in `src/models/users.py`): both the
token string and the `user_id` foreign key are nullable columns. -/
structure TokenModel where
  id : Nat
  refresh_token : Option String
  user_id : Option Nat
deriving Repr, DecidableEq

/-- Request body for creating or updating a contact (`ContactCreateSchema` in
`src/schemas/contact.py`). -/
structure ContactCreateSchema where
  name : String
  surname : String
  email : String
  phone : String
  birthday : Option Nat
  notes : String
  is_favorite : Bool
deriving Repr, DecidableEq

/-- Request body of the password-reset POST route (`UserResetPasswordSchema`). -/
structure UserResetPasswordSchema where
  username : String
  password : String
  confirm_password : String
deriving Repr, DecidableEq

/-- Response body of login/refresh (`TokenSchema` in `src/schemas/user.py`). -/
structure TokenSchema where
  access_token : String
  refresh_token : String
  token_type : String
deriving Repr, DecidableEq

/-- Replace the first element satisfying `p` by `f` of it: the ORM pattern of
fetching one row with `scalar_one_or_none` and mutating it before `commit`. -/
def updateFirst {α : Type} (p : α → Bool) (f : α → α) : List α → List α
  | [] => []
  | x :: xs => if p x then f x :: xs else x :: updateFirst p f xs

/-- Remove the first element satisfying `p`: `session.delete` of a fetched row. -/
def removeFirst {α : Type} (p : α → Bool) : List α → List α
  | [] => []
  | x :: xs => if p x then xs else x :: removeFirst p xs

/-- `LOWER(col) LIKE LOWER('%key%')`: a case-insensitive substring test. -/
def likeContains (key field : String) : Bool :=
  let p := key.toLower.toList
  let s := field.toLower.toList
  (List.range (s.length + 1)).any (fun i => (s.drop i).take p.length == p)

/-- `filter_by(user=user)` on the contacts table: the ORM compares the
relationship through the foreign key, i.e. `user_id = user.id`. -/
def ownedBy (user : UserModel) (c : ContactModel) : Bool :=
  c.user_id == some user.id

/-- SQL `BETWEEN`: inclusive on both ends, and a `NULL` value is in no range. -/
def betweenDate (b : Option Nat) (lo hi : Nat) : Bool :=
  match b with
  | none => false
  | some d => decide (lo ≤ d) && decide (d ≤ hi)

namespace ContactRepo

/-- `ContactRepo.get_all`: the user's contacts with SQL `OFFSET` then `LIMIT`. -/
def get_all (db : List ContactModel) (limit offset : Nat) (user : UserModel) :
    List ContactModel :=
  ((db.filter (ownedBy user)).drop offset).take limit

/-- `ContactRepo.get_by_id`: `scalar_one_or_none` over
`filter_by(id=contact_id, user=user)`. -/
def get_by_id (db : List ContactModel) (contact_id : Nat) (user : UserModel) :
    Option ContactModel :=
  db.find? (fun c => c.id == contact_id && ownedBy user c)

/-- `ContactRepo.create`: insert a row built from the request body and owned by
`user`; `new_id` models the database-generated primary key.  Returns the
refreshed row together with the new table. -/
def create (db : List ContactModel) (new_id : Nat) (body : ContactCreateSchema)
    (user : UserModel) : ContactModel × List ContactModel :=
  let contact : ContactModel :=
    { id := new_id, name := body.name, surname := body.surname,
      email := body.email, phone := body.phone, birthday := body.birthday,
      notes := body.notes, is_favorite := body.is_favorite,
      user_id := some user.id }
  (contact, db ++ [contact])

/-- `ContactRepo.update`: fetch by `(id, user)`; if a row is found overwrite the
listed fields (everything except `id` and `user_id`) and return it, otherwise
return `None` and leave the table untouched. -/
def update (db : List ContactModel) (contact_id : Nat)
    (body : ContactCreateSchema) (user : UserModel) :
    Option ContactModel × List ContactModel :=
  match db.find? (fun c => c.id == contact_id && ownedBy user c) with
  | none => (none, db)
  | some c =>
    let c2 : ContactModel :=
      { c with name := body.name, surname := body.surname, email := body.email,
               phone := body.phone, birthday := body.birthday,
               notes := body.notes, is_favorite := body.is_favorite }
    (some c2,
     updateFirst (fun x => x.id == contact_id && ownedBy user x) (fun _ => c2) db)

/-- `ContactRepo.delete`: fetch by `(id, user)`; if a row is found delete it and
return it, otherwise return `None` and leave the table untouched. -/
def delete (db : List ContactModel) (contact_id : Nat) (user : UserModel) :
    Option ContactModel × List ContactModel :=
  match db.find? (fun c => c.id == contact_id && ownedBy user c) with
  | none => (none, db)
  | some c => (some c, removeFirst (fun x => x.id == contact_id && ownedBy user x) db)

/-- `ContactRepo.get_by_name`: user scope plus case-insensitive `LIKE` on name. -/
def get_by_name (db : List ContactModel) (key_name : String) (user : UserModel) :
    List ContactModel :=
  db.filter (fun c => ownedBy user c && likeContains key_name c.name)

/-- `ContactRepo.get_by_surname`: user scope plus `LIKE` on surname. -/
def get_by_surname (db : List ContactModel) (key_surname : String)
    (user : UserModel) : List ContactModel :=
  db.filter (fun c => ownedBy user c && likeContains key_surname c.surname)

/-- `ContactRepo.get_by_email`: user scope plus `LIKE` on email. -/
def get_by_email (db : List ContactModel) (key_email : String)
    (user : UserModel) : List ContactModel :=
  db.filter (fun c => ownedBy user c && likeContains key_email c.email)

/-- `ContactRepo.get_upcoming_birthday`: user scope plus
`birthday BETWEEN today AND today + 7`, then `OFFSET`/`LIMIT`.  The source reads
`today` from the wall clock (`datetime.now().date()`); here it is a parameter. -/
def get_upcoming_birthday (db : List ContactModel) (limit offset : Nat)
    (user : UserModel) (today : Nat) : List ContactModel :=
  let next_week := today + 7
  ((db.filter (fun c => ownedBy user c && betweenDate c.birthday today next_week)).drop
      offset).take limit

end ContactRepo

namespace UserRepo

/-- `UserRepo.get_user_by_username`: `scalar_one_or_none` by `username`. -/
def get_user_by_username (users : List UserModel) (username : String) :
    Option UserModel :=
  users.find? (fun u => u.username == username)

/-- `UserRepo.update_token`: fetch the token row of `user`; mutate its
`refresh_token` field when one exists, otherwise insert a fresh row for the user
(`new_id` models the generated primary key). -/
def update_token (tokens : List TokenModel) (new_id : Nat) (user : UserModel)
    (refresh_token : Option String) : List TokenModel :=
  match tokens.find? (fun t => t.user_id == some user.id) with
  | some _ =>
    updateFirst (fun t => t.user_id == some user.id)
      (fun t => { t with refresh_token := refresh_token }) tokens
  | none =>
    tokens ++ [{ id := new_id, refresh_token := refresh_token, user_id := some user.id }]

/-- `UserRepo.get_refresh_token`: fetch the row of `user` and read its
`refresh_token` column.  When no row exists the source dereferences `None` and
raises `AttributeError`; that crash is the outer `none` here, while `some s`
means the row exists and stores the nullable string `s`. -/
def get_refresh_token (tokens : List TokenModel) (user : UserModel) :
    Option (Option String) :=
  (tokens.find? (fun t => t.user_id == some user.id)).map (fun t => t.refresh_token)

/-- `UserRepo.update_avatar_url`: fetch by username, set the `avatar` column and
return the refreshed user; `none` when the username is absent (the source would
raise `AttributeError` there). -/
def update_avatar_url (users : List UserModel) (username : String)
    (url : Option String) : Option UserModel × List UserModel :=
  match get_user_by_username users username with
  | none => (none, users)
  | some u =>
    let u2 : UserModel := { u with avatar := url }
    (some u2, updateFirst (fun x => x.username == username) (fun _ => u2) users)

/-- `UserRepo.change_password`: fetch by username and overwrite the (already
hashed) password.  `none` when the username is absent. -/
def change_password (users : List UserModel) (body : UserResetPasswordSchema) :
    Option UserModel × List UserModel :=
  match get_user_by_username users body.username with
  | none => (none, users)
  | some u =>
    let u2 : UserModel := { u with password := body.password }
    (some u2, updateFirst (fun x => x.username == body.username) (fun _ => u2) users)

end UserRepo

/-- One Redis write performed by a handler: a `cache.set(key, pickled user)`
followed by `cache.expire(key, expire)` with `expire` in seconds. -/
structure CacheWrite where
  key : String
  expire : Nat
deriving Repr, DecidableEq

/-- The mutable server state the auth routes touch: the users table and the
refresh-token table. -/
structure AuthState where
  users : List UserModel
  tokens : List TokenModel
deriving Repr, DecidableEq

/-- Outcome of the refresh route, which can change state even on failure. -/
structure RefreshResult where
  status : Nat
  tokens? : Option TokenSchema
  state : AuthState
deriving Repr, DecidableEq

namespace AuthRouter

/-- The `login` route in `src/routers/auth.py`.  `verify` abstracts the bcrypt
check `auth_service.verify_password`; `new_id` the generated token-row key;
`access_tok` and `refresh_tok` the freshly signed JWTs.  Unknown username,
unconfirmed account and failing password check each raise HTTP 401 before any
write.  The source performs no Redis operation on this route, hence the
cache-write list in the success value is empty. -/
def login (verify : String → String → Bool) (st : AuthState) (new_id : Nat)
    (access_tok refresh_tok : String) (username password : String) :
    Except Nat (TokenSchema × AuthState × List CacheWrite) :=
  match UserRepo.get_user_by_username st.users username with
  | none => .error 401
  | some user =>
    if !user.confirmed then .error 401
    else if !verify password user.password then .error 401
    else
      .ok ({ access_token := access_tok, refresh_token := refresh_tok,
             token_type := "bearer" },
           { st with tokens := UserRepo.update_token st.tokens new_id user (some refresh_tok) },
           [])

/-- The `refresh_token` route in `src/routers/auth.py`.  `decode` abstracts
`auth_service.decode_refresh_token` (the token subject, or `none` for an invalid
signature or scope, which the source maps to 401 before any lookup).  A username
that resolves to no user, or a user with no token row, makes the source raise
`AttributeError` (status 500 here).  When the stored token differs from the
presented one the stored token is set to `None` and 401 is raised; when they
agree, fresh tokens `access_tok` / `new_refresh` are issued and the new refresh
token is stored. -/
def refresh_route (decode : String → Option String) (st : AuthState)
    (new_id : Nat) (access_tok new_refresh : String) (token : String) :
    RefreshResult :=
  match decode token with
  | none => { status := 401, tokens? := none, state := st }
  | some username =>
    match UserRepo.get_user_by_username st.users username with
    | none => { status := 500, tokens? := none, state := st }
    | some user =>
      match UserRepo.get_refresh_token st.tokens user with
      | none => { status := 500, tokens? := none, state := st }
      | some stored =>
        if stored = some token then
          { status := 200,
            tokens? := some { access_token := access_tok,
                              refresh_token := new_refresh,
                              token_type := "bearer" },
            state := { st with
              tokens := UserRepo.update_token st.tokens new_id user (some new_refresh) } }
        else
          { status := 401, tokens? := none,
            state := { st with
              tokens := UserRepo.update_token st.tokens new_id user none } }

/-- The `forgot_password` route: an unknown username raises HTTP 400
("Email not found"); otherwise a reset mail task is queued and a message
returned. -/
def forgot_password_route (users : List UserModel) (username : String) :
    Except Nat String :=
  match UserRepo.get_user_by_username users username with
  | none => .error 400
  | some _ =>
    .ok "A password reset email was sent to your email address. Check your email."

/-- The GET `reset_password/{token}` route: `decodeEmail` abstracts
`get_email_from_token` (`none` meaning an invalid token, HTTP 422); an unknown
account raises HTTP 400 ("Verification error"); otherwise the source redirects. -/
def reset_password_get_route (decodeEmail : String → Option String)
    (users : List UserModel) (token : String) : Except Nat String :=
  match decodeEmail token with
  | none => .error 422
  | some email =>
    match UserRepo.get_user_by_username users email with
    | none => .error 400
    | some _ => .ok "/api/auth/reset_password"

/-- The POST `reset_password` route: an unknown account raises HTTP 409
("Account not found"); a mismatched confirmation raises HTTP 409; otherwise the
password is hashed (`hash` abstracts bcrypt) and stored, returning the new users
table. -/
def reset_password_post_route (hash : String → String) (users : List UserModel)
    (body : UserResetPasswordSchema) : Except Nat (List UserModel) :=
  match UserRepo.get_user_by_username users body.username with
  | none => .error 409
  | some _ =>
    if body.password ≠ body.confirm_password then .error 409
    else
      (UserRepo.change_password users
        { body with password := hash body.password }).2 |> .ok

/-- The `get_contact_by_id` route in `src/routers/contacts_items.py`: HTTP 404
when the repository returns no row. -/
def get_contact_by_id_route (db : List ContactModel) (contact_id : Nat)
    (user : UserModel) : Except Nat ContactModel :=
  match ContactRepo.get_by_id db contact_id user with
  | none => .error 404
  | some c => .ok c

end AuthRouter

/-- The `upload_avatar` route in `src/routers/users.py`: the Cloudinary upload
is abstracted into the resulting `res_url`; the user's avatar row is updated and
then the cache entry keyed by the (updated) user's username is written with a
300-second expiry.  `none` in the first component models the `AttributeError`
path of an absent username. -/
def upload_avatar (users : List UserModel) (user : UserModel) (res_url : String) :
    Option UserModel × List UserModel × List CacheWrite :=
  match UserRepo.update_avatar_url users user.username (some res_url) with
  | (none, users2) => (none, users2, [])
  | (some u2, users2) => (some u2, users2, [{ key := u2.username, expire := 300 }])

/-- `AuthService.get_current_user`: decode the access token (`decodeAccess`
abstracts the JWT check, `none` standing for every credentials-exception
branch), then cache-aside lookup: a cache hit performs no write; a miss loads
the user from the database and writes the cache entry keyed by the username with
a 300-second expiry; an unknown username raises 401. -/
def get_current_user (decodeAccess : String → Option String)
    (cache : String → Option UserModel) (users : List UserModel)
    (token : String) : Except Nat (UserModel × List CacheWrite) :=
  match decodeAccess token with
  | none => .error 401
  | some username =>
    match cache username with
    | some u => .ok (u, [])
    | none =>
      match UserRepo.get_user_by_username users username with
      | none => .error 401
      | some u => .ok (u, [{ key := username, expire := 300 }])

/-- Contact-table invariant: every stored contact has a non-null owning user
reference. -/
def ContactsOwned (db : List ContactModel) : Prop :=
  ∀ c ∈ db, c.user_id ≠ none

/-- Token-table invariant: at most one refresh-token row per user id. -/
def AtMostOneTokenRow (tokens : List TokenModel) : Prop :=
  ∀ uid : Nat, (tokens.filter (fun t => t.user_id == some uid)).length ≤ 1

/-- The upcoming-birthday query as the specification words it: the user's
contacts whose stored birthday lies between today and today plus seven days
inclusive, windowed by offset and limit. -/
def upcomingBirthdaySpec (db : List ContactModel) (limit offset : Nat)
    (user : UserModel) (today : Nat) : List ContactModel :=
  ((db.filter (fun c => c.user_id == some user.id &&
      c.birthday.elim false (fun b => decide (today ≤ b ∧ b ≤ today + 7)))).drop
      offset).take limit

/-- Sample user row used to instantiate theorems on concrete inputs. -/
def sampleUser : UserModel :=
  { id := 1, username := "alice", password := "hashed-pw", confirmed := true,
    avatar := none }

/-- A second sample user. -/
def otherUser : UserModel :=
  { id := 2, username := "bob", password := "hash2", confirmed := true,
    avatar := none }

/-- Sample contact row owned by `sampleUser`. -/
def sampleContact : ContactModel :=
  { id := 1, name := "Carol", surname := "Smith", email := "carol@example.com",
    phone := "123", birthday := some 100, notes := "", is_favorite := false,
    user_id := some 1 }

/-- Sample contact request body. -/
def sampleBody : ContactCreateSchema :=
  { name := "Dan", surname := "Jones", email := "dan@example.com", phone := "456",
    birthday := some 103, notes := "n", is_favorite := true }

/-- Sample refresh-token row of `sampleUser`. -/
def sampleToken : TokenModel :=
  { id := 5, refresh_token := some "R1", user_id := some 1 }

/-! Helper lemmas about the row-mutation combinators. -/

theorem mem_updateFirst {α : Type} (p : α → Bool) (f : α → α) (l : List α)
    (y : α) (hy : y ∈ updateFirst p f l) : y ∈ l ∨ ∃ x, x ∈ l ∧ y = f x := by
  induction l with
  | nil => simp [updateFirst] at hy
  | cons a l ih =>
    cases hpa : p a
    · simp only [updateFirst, hpa, Bool.false_eq_true, if_false] at hy
      rcases List.mem_cons.mp hy with h | h
      · exact Or.inl (h ▸ List.mem_cons_self a l)
      · rcases ih h with h2 | ⟨x, hx, hyx⟩
        · exact Or.inl (List.mem_cons_of_mem _ h2)
        · exact Or.inr ⟨x, List.mem_cons_of_mem _ hx, hyx⟩
    · simp only [updateFirst, hpa, if_true] at hy
      rcases List.mem_cons.mp hy with h | h
      · exact Or.inr ⟨a, List.mem_cons_self a l, h⟩
      · exact Or.inl (List.mem_cons_of_mem _ h)

theorem mem_removeFirst {α : Type} (p : α → Bool) (l : List α) (y : α)
    (hy : y ∈ removeFirst p l) : y ∈ l := by
  induction l with
  | nil => simp [removeFirst] at hy
  | cons a l ih =>
    cases hpa : p a
    · simp only [removeFirst, hpa, Bool.false_eq_true, if_false] at hy
      rcases List.mem_cons.mp hy with h | h
      · exact h ▸ List.mem_cons_self a l
      · exact List.mem_cons_of_mem _ (ih h)
    · simp only [removeFirst, hpa, if_true] at hy
      exact List.mem_cons_of_mem _ hy

theorem length_updateFirst {α : Type} (p : α → Bool) (f : α → α) (l : List α) :
    (updateFirst p f l).length = l.length := by
  induction l with
  | nil => rfl
  | cons a l ih =>
    cases hpa : p a
    · simp only [updateFirst, hpa, Bool.false_eq_true, if_false, List.length_cons, ih]
    · simp only [updateFirst, hpa, if_true, List.length_cons]

theorem find?_updateFirst {α : Type} (p : α → Bool) (f : α → α) (l : List α)
    (x : α) (hpf : ∀ z, p z = true → p (f z) = true) (hx : l.find? p = some x) :
    (updateFirst p f l).find? p = some (f x) := by
  induction l with
  | nil => simp at hx
  | cons a l ih =>
    cases hpa : p a
    · rw [List.find?_cons_of_neg l (by simp [hpa])] at hx
      simp only [updateFirst, hpa, Bool.false_eq_true, if_false]
      rw [List.find?_cons_of_neg _ (by simp [hpa])]
      exact ih hx
    · rw [List.find?_cons_of_pos l hpa] at hx
      injection hx with h
      subst h
      simp only [updateFirst, hpa, if_true]
      rw [List.find?_cons_of_pos _ (hpf a hpa)]

theorem find?_append_single_none {α : Type} (p : α → Bool) (l : List α) (t : α)
    (hl : l.find? p = none) (ht : p t = true) : (l ++ [t]).find? p = some t := by
  induction l with
  | nil => simp [List.find?_cons_of_pos _ ht]
  | cons a l ih =>
    cases hpa : p a
    · rw [List.find?_cons_of_neg l (by simp [hpa])] at hl
      rw [List.cons_append, List.find?_cons_of_neg _ (by simp [hpa])]
      exact ih hl
    · rw [List.find?_cons_of_pos l hpa] at hl
      exact absurd hl (by simp)

theorem filter_updateFirst_length {α : Type} (p q : α → Bool) (f : α → α)
    (hf : ∀ x, p (f x) = p x) (l : List α) :
    ((updateFirst q f l).filter p).length = (l.filter p).length := by
  induction l with
  | nil => rfl
  | cons a l ih =>
    cases hqa : q a
    · simp only [updateFirst, hqa, Bool.false_eq_true, if_false, List.filter_cons]
      cases hpa : p a <;> simp [hpa, ih]
    · simp only [updateFirst, hqa, if_true, List.filter_cons, hf a]
      cases hpa : p a <;> simp [hpa]

/-! Domain lemmas. -/

theorem bool_and_left {a b : Bool} (h : (a && b) = true) : a = true := by
  cases a <;> simp_all

theorem bool_and_right {a b : Bool} (h : (a && b) = true) : b = true := by
  cases b <;> simp_all

theorem ownedBy_eq_true {user : UserModel} {c : ContactModel}
    (h : ownedBy user c = true) : c.user_id = some user.id := by
  simpa [ownedBy] using h

theorem prop_of_mem_window {α : Type} (p : α → Bool) (l : List α)
    (limit offset : Nat) (c : α)
    (hc : c ∈ ((l.filter p).drop offset).take limit) : p c = true :=
  (List.mem_filter.mp (List.mem_of_mem_drop (List.mem_of_mem_take hc))).2

/-- After `update_token`, the stored refresh token of `user` is exactly the one
just written, whether the existing row was mutated or a fresh one inserted. -/
theorem get_refresh_token_update_token (tokens : List TokenModel) (new_id : Nat)
    (user : UserModel) (rt : Option String) :
    UserRepo.get_refresh_token (UserRepo.update_token tokens new_id user rt) user
      = some rt := by
  cases hfind : tokens.find? (fun t => t.user_id == some user.id) with
  | none =>
    have hupdate : UserRepo.update_token tokens new_id user rt
        = tokens ++ [{ id := new_id, refresh_token := rt, user_id := some user.id }] := by
      unfold UserRepo.update_token
      rw [hfind]
    rw [hupdate]
    unfold UserRepo.get_refresh_token
    rw [find?_append_single_none _ _ _ hfind (by simp)]
    rfl
  | some t0 =>
    have hupdate : UserRepo.update_token tokens new_id user rt
        = updateFirst (fun t => t.user_id == some user.id)
            (fun t => { t with refresh_token := rt }) tokens := by
      unfold UserRepo.update_token
      rw [hfind]
    rw [hupdate]
    unfold UserRepo.get_refresh_token
    rw [find?_updateFirst (fun t => t.user_id == some user.id)
        (fun t => { t with refresh_token := rt }) tokens t0 (fun z hz => hz) hfind]
    rfl

/-! The claims. -/

/-- C1: every contact-reading repository operation (list all, get by id, search
by name, surname or email, upcoming birthdays) filters on the owning user, so
every row it returns belongs to the requesting user. -/
theorem C1_reads_scoped_to_requesting_user (db : List ContactModel)
    (limit offset contact_id today : Nat) (key : String) (user : UserModel) :
    (∀ c ∈ ContactRepo.get_all db limit offset user, c.user_id = some user.id) ∧
    (∀ c, ContactRepo.get_by_id db contact_id user = some c →
      c.user_id = some user.id) ∧
    (∀ c ∈ ContactRepo.get_by_name db key user, c.user_id = some user.id) ∧
    (∀ c ∈ ContactRepo.get_by_surname db key user, c.user_id = some user.id) ∧
    (∀ c ∈ ContactRepo.get_by_email db key user, c.user_id = some user.id) ∧
    (∀ c ∈ ContactRepo.get_upcoming_birthday db limit offset user today,
      c.user_id = some user.id) := by
  refine ⟨?_, ?_, ?_, ?_, ?_, ?_⟩
  · intro c hc
    exact ownedBy_eq_true (prop_of_mem_window _ _ _ _ _ hc)
  · intro c hc
    have h := List.find?_some hc
    exact ownedBy_eq_true (bool_and_right h)
  · intro c hc
    exact ownedBy_eq_true (bool_and_left (List.mem_filter.mp hc).2)
  · intro c hc
    exact ownedBy_eq_true (bool_and_left (List.mem_filter.mp hc).2)
  · intro c hc
    exact ownedBy_eq_true (bool_and_left (List.mem_filter.mp hc).2)
  · intro c hc
    simp only [ContactRepo.get_upcoming_birthday] at hc
    exact ownedBy_eq_true (bool_and_left (prop_of_mem_window
      (fun c => ownedBy user c && betweenDate c.birthday today (today + 7))
      db limit offset c hc))

/-- C1 instantiated on a concrete database. -/
theorem C1_witness : sampleContact.user_id = some 1 :=
  (C1_reads_scoped_to_requesting_user [sampleContact] 10 0 1 95 "car"
      sampleUser).2.1 sampleContact (by decide)

/-- C2: login answers HTTP 401 and issues no tokens when the username is
unknown, the account is unconfirmed, or the password check fails; it succeeds
and issues tokens exactly when the user exists, is confirmed, and the password
verifies. -/
theorem C2_login_requires_known_confirmed_verified
    (verify : String → String → Bool) (st : AuthState) (new_id : Nat)
    (access_tok refresh_tok username password : String) :
    (UserRepo.get_user_by_username st.users username = none →
      AuthRouter.login verify st new_id access_tok refresh_tok username password
        = .error 401) ∧
    (∀ user, UserRepo.get_user_by_username st.users username = some user →
      user.confirmed = false →
      AuthRouter.login verify st new_id access_tok refresh_tok username password
        = .error 401) ∧
    (∀ user, UserRepo.get_user_by_username st.users username = some user →
      verify password user.password = false →
      AuthRouter.login verify st new_id access_tok refresh_tok username password
        = .error 401) ∧
    (∀ user, UserRepo.get_user_by_username st.users username = some user →
      user.confirmed = true → verify password user.password = true →
      AuthRouter.login verify st new_id access_tok refresh_tok username password
        = .ok ({ access_token := access_tok, refresh_token := refresh_tok,
                 token_type := "bearer" },
               { st with tokens :=
                   UserRepo.update_token st.tokens new_id user (some refresh_tok) },
               [])) := by
  refine ⟨?_, ?_, ?_, ?_⟩
  · intro h
    simp [AuthRouter.login, h]
  · intro user h hconf
    simp [AuthRouter.login, h, hconf]
  · intro user h hv
    simp [AuthRouter.login, h, hv]
  · intro user h hconf hv
    simp [AuthRouter.login, h, hconf, hv]

/-- C2 instantiated: a confirmed user with a verifying password logs in and the
refresh token is stored. -/
theorem C2_witness :
    AuthRouter.login (fun p h => p == h) { users := [sampleUser], tokens := [] }
        7 "A" "R" "alice" "hashed-pw"
      = .ok ({ access_token := "A", refresh_token := "R", token_type := "bearer" },
             { users := [sampleUser],
               tokens := [{ id := 7, refresh_token := some "R", user_id := some 1 }] },
             []) :=
  (C2_login_requires_known_confirmed_verified (fun p h => p == h)
      { users := [sampleUser], tokens := [] } 7 "A" "R" "alice" "hashed-pw").2.2.2
    sampleUser (by decide) (by decide) (by decide)

/-- C3: a presented refresh token that decodes to `user` but differs from the
stored token is rejected with HTTP 401 and no tokens are issued; a presented
token equal to the stored one succeeds, and the newly issued refresh token
replaces the stored one. -/
theorem C3_refresh_rotation (decode : String → Option String) (st : AuthState)
    (new_id : Nat) (access_tok new_refresh token username : String)
    (user : UserModel) (stored : Option String)
    (hdec : decode token = some username)
    (huser : UserRepo.get_user_by_username st.users username = some user)
    (hstored : UserRepo.get_refresh_token st.tokens user = some stored) :
    (stored ≠ some token →
      (AuthRouter.refresh_route decode st new_id access_tok new_refresh token).status
          = 401 ∧
      (AuthRouter.refresh_route decode st new_id access_tok new_refresh token).tokens?
          = none) ∧
    (stored = some token →
      (AuthRouter.refresh_route decode st new_id access_tok new_refresh token).status
          = 200 ∧
      (AuthRouter.refresh_route decode st new_id access_tok new_refresh token).tokens?
          = some { access_token := access_tok, refresh_token := new_refresh,
                   token_type := "bearer" } ∧
      UserRepo.get_refresh_token
          (AuthRouter.refresh_route decode st new_id access_tok new_refresh token).state.tokens
          user = some (some new_refresh)) := by
  constructor
  · intro hne
    simp [AuthRouter.refresh_route, hdec, huser, hstored, hne]
  · intro heq
    simp [AuthRouter.refresh_route, hdec, huser, hstored, heq,
      get_refresh_token_update_token]

/-- C3 instantiated: presenting the stored token rotates it; the concrete values
check that the new refresh token is stored afterwards. -/
theorem C3_witness :
    (AuthRouter.refresh_route (fun _ => some "alice")
        { users := [sampleUser], tokens := [sampleToken] } 9 "A2" "R2" "R1").status
        = 200 ∧
    (AuthRouter.refresh_route (fun _ => some "alice")
        { users := [sampleUser], tokens := [sampleToken] } 9 "A2" "R2" "R1").tokens?
        = some { access_token := "A2", refresh_token := "R2",
                 token_type := "bearer" } ∧
    UserRepo.get_refresh_token
        (AuthRouter.refresh_route (fun _ => some "alice")
          { users := [sampleUser], tokens := [sampleToken] } 9 "A2" "R2" "R1").state.tokens
        sampleUser = some (some "R2") :=
  (C3_refresh_rotation (fun _ => some "alice")
      { users := [sampleUser], tokens := [sampleToken] } 9 "A2" "R2" "R1" "alice"
      sampleUser (some "R1") rfl (by decide) (by decide)).2 rfl

/-- C9: on a mismatched refresh token the stored token is set to null before the
HTTP 401 is raised, so every later refresh attempt for that user, with any
presented token that decodes to the same username, is also rejected with 401. -/
theorem C9_mismatch_revokes_stored_token (decode : String → Option String)
    (st : AuthState) (new_id : Nat)
    (access_tok new_refresh token username : String) (user : UserModel)
    (stored : Option String)
    (hdec : decode token = some username)
    (huser : UserRepo.get_user_by_username st.users username = some user)
    (hstored : UserRepo.get_refresh_token st.tokens user = some stored)
    (hne : stored ≠ some token) :
    (AuthRouter.refresh_route decode st new_id access_tok new_refresh token).status
        = 401 ∧
    UserRepo.get_refresh_token
        (AuthRouter.refresh_route decode st new_id access_tok new_refresh token).state.tokens
        user = some none ∧
    (∀ (new_id2 : Nat) (a2 r2 token2 : String), decode token2 = some username →
      (AuthRouter.refresh_route decode
          (AuthRouter.refresh_route decode st new_id access_tok new_refresh token).state
          new_id2 a2 r2 token2).status = 401) := by
  have hstate :
      (AuthRouter.refresh_route decode st new_id access_tok new_refresh token).state
        = { st with tokens := UserRepo.update_token st.tokens new_id user none } := by
    simp [AuthRouter.refresh_route, hdec, huser, hstored, hne]
  refine ⟨?_, ?_, ?_⟩
  · simp [AuthRouter.refresh_route, hdec, huser, hstored, hne]
  · rw [hstate]
    exact get_refresh_token_update_token st.tokens new_id user none
  · intro new_id2 a2 r2 token2 hdec2
    rw [hstate]
    simp [AuthRouter.refresh_route, hdec2, huser, get_refresh_token_update_token]

/-- C9 instantiated: a wrong presented token nulls the stored one and a second
attempt fails as well. -/
theorem C9_witness :
    (AuthRouter.refresh_route (fun _ => some "alice")
        { users := [sampleUser], tokens := [sampleToken] } 9 "A2" "R2" "WRONG").status
        = 401 ∧
    UserRepo.get_refresh_token
        (AuthRouter.refresh_route (fun _ => some "alice")
          { users := [sampleUser], tokens := [sampleToken] } 9 "A2" "R2" "WRONG").state.tokens
        sampleUser = some none ∧
    (AuthRouter.refresh_route (fun _ => some "alice")
        (AuthRouter.refresh_route (fun _ => some "alice")
          { users := [sampleUser], tokens := [sampleToken] } 9 "A2" "R2" "WRONG").state
        11 "A3" "R3" "R1").status = 401 :=
  ⟨(C9_mismatch_revokes_stored_token (fun _ => some "alice")
      { users := [sampleUser], tokens := [sampleToken] } 9 "A2" "R2" "WRONG" "alice"
      sampleUser (some "R1") rfl (by decide) (by decide) (by decide)).1,
   (C9_mismatch_revokes_stored_token (fun _ => some "alice")
      { users := [sampleUser], tokens := [sampleToken] } 9 "A2" "R2" "WRONG" "alice"
      sampleUser (some "R1") rfl (by decide) (by decide) (by decide)).2.1,
   (C9_mismatch_revokes_stored_token (fun _ => some "alice")
      { users := [sampleUser], tokens := [sampleToken] } 9 "A2" "R2" "WRONG" "alice"
      sampleUser (some "R1") rfl (by decide) (by decide) (by decide)).2.2
     11 "A3" "R3" "R1" rfl⟩

/-- C4 as stated fails on the code: this concrete login succeeds, yet the login
route performs no Redis cache operation (its cache-write list is empty), so the
cache entry keyed by the username is not overwritten on login. -/
theorem C4_counterexample :
    AuthRouter.login (fun p h => p == h) { users := [otherUser], tokens := [] }
        3 "AT" "RT" "bob" "hash2"
      = .ok ({ access_token := "AT", refresh_token := "RT", token_type := "bearer" },
             { users := [otherUser],
               tokens := [{ id := 3, refresh_token := some "RT", user_id := some 2 }] },
             []) := by
  rfl

/-- C4 amended: every avatar change overwrites the cache entry keyed by the
user's username with a fixed 300-second expiry, and the cache-miss path of
request authentication writes the same entry with a 300-second expiry; login
performs no cache write. -/
theorem C4_amended_cache_writers (users : List UserModel) (user : UserModel)
    (res_url : String) (decodeAccess : String → Option String)
    (cache : String → Option UserModel) (token username : String)
    (u : UserModel) (verify : String → String → Bool) (st : AuthState)
    (new_id : Nat) (access_tok refresh_tok login_username password : String) :
    ((UserRepo.get_user_by_username users user.username).isSome = true →
      (upload_avatar users user res_url).2.2
        = [{ key := user.username, expire := 300 }]) ∧
    (decodeAccess token = some username → cache username = none →
      UserRepo.get_user_by_username users username = some u →
      get_current_user decodeAccess cache users token
        = .ok (u, [{ key := username, expire := 300 }])) ∧
    (∀ ts st2 w,
      AuthRouter.login verify st new_id access_tok refresh_tok login_username password
          = .ok (ts, st2, w) → w = []) := by
  refine ⟨?_, ?_, ?_⟩
  · intro hsome
    obtain ⟨u0, hu0⟩ := Option.isSome_iff_exists.mp hsome
    have hname : u0.username = user.username := by
      have h := List.find?_some hu0
      simpa using h
    have h2 : UserRepo.update_avatar_url users user.username (some res_url)
        = (some { u0 with avatar := some res_url },
           updateFirst (fun x => x.username == user.username)
             (fun _ => { u0 with avatar := some res_url }) users) := by
      unfold UserRepo.update_avatar_url
      rw [hu0]
    simp [upload_avatar, h2, hname]
  · intro hdec hcache hu
    simp [get_current_user, hdec, hcache, hu]
  · intro ts st2 w hlogin
    simp only [AuthRouter.login] at hlogin
    split at hlogin
    · simp at hlogin
    · split at hlogin
      · simp at hlogin
      · split at hlogin
        · simp at hlogin
        · simp only [Except.ok.injEq, Prod.mk.injEq] at hlogin
          exact hlogin.2.2.symm

/-- C4 amended, instantiated: a concrete avatar change writes the cache entry of
the user with a 300-second expiry, and a concrete authentication cache miss does
the same. -/
theorem C4_amended_witness :
    (upload_avatar [sampleUser] sampleUser "http://img").2.2
        = [{ key := "alice", expire := 300 }] ∧
    get_current_user (fun _ => some "alice") (fun _ => none) [sampleUser] "T"
        = .ok (sampleUser, [{ key := "alice", expire := 300 }]) :=
  ⟨(C4_amended_cache_writers [sampleUser] sampleUser "http://img"
      (fun _ => some "alice") (fun _ => none) "T" "alice" sampleUser
      (fun p h => p == h) { users := [sampleUser], tokens := [] } 3 "AT" "RT"
      "alice" "pw").1 (by decide),
   (C4_amended_cache_writers [sampleUser] sampleUser "http://img"
      (fun _ => some "alice") (fun _ => none) "T" "alice" sampleUser
      (fun p h => p == h) { users := [sampleUser], tokens := [] } 3 "AT" "RT"
      "alice" "pw").2.1 rfl rfl (by decide)⟩

/-- C5 as stated fails on the code: forgot-password with an unknown username
answers HTTP 400 ("Email not found"), not 404. -/
theorem C5_counterexample :
    AuthRouter.forgot_password_route [] "ghost" = .error 400 ∧ (400 : Nat) ≠ 404 :=
  ⟨rfl, by decide⟩

/-- C5 amended: a missing contact id fails with HTTP 404, but an unknown
username in forgot-password fails with HTTP 400, an unknown account in the
password-reset POST route fails with HTTP 409, and an unknown account in the
reset-token GET route fails with HTTP 400. -/
theorem C5_amended_missing_record_status_codes (db : List ContactModel)
    (contact_id : Nat) (user : UserModel) (users : List UserModel)
    (username : String) (hash : String → String)
    (body : UserResetPasswordSchema) (decodeEmail : String → Option String)
    (token email : String) :
    (ContactRepo.get_by_id db contact_id user = none →
      AuthRouter.get_contact_by_id_route db contact_id user = .error 404) ∧
    (UserRepo.get_user_by_username users username = none →
      AuthRouter.forgot_password_route users username = .error 400) ∧
    (UserRepo.get_user_by_username users body.username = none →
      AuthRouter.reset_password_post_route hash users body = .error 409) ∧
    (decodeEmail token = some email →
      UserRepo.get_user_by_username users email = none →
      AuthRouter.reset_password_get_route decodeEmail users token = .error 400) := by
  refine ⟨?_, ?_, ?_, ?_⟩
  · intro h
    simp [AuthRouter.get_contact_by_id_route, h]
  · intro h
    simp [AuthRouter.forgot_password_route, h]
  · intro h
    simp [AuthRouter.reset_password_post_route, h]
  · intro hdec h
    simp [AuthRouter.reset_password_get_route, hdec, h]

/-- C5 amended, instantiated on concrete missing records. -/
theorem C5_amended_witness :
    AuthRouter.get_contact_by_id_route [] 1 sampleUser = .error 404 ∧
    AuthRouter.forgot_password_route [] "ghost2" = .error 400 ∧
    AuthRouter.reset_password_post_route (fun s => s) []
        { username := "ghost2", password := "p1", confirm_password := "p1" }
        = .error 409 ∧
    AuthRouter.reset_password_get_route (fun _ => some "ghost2") [] "T"
        = .error 400 :=
  ⟨(C5_amended_missing_record_status_codes [] 1 sampleUser [] "ghost2"
      (fun s => s) { username := "ghost2", password := "p1", confirm_password := "p1" }
      (fun _ => some "ghost2") "T" "ghost2").1 rfl,
   (C5_amended_missing_record_status_codes [] 1 sampleUser [] "ghost2"
      (fun s => s) { username := "ghost2", password := "p1", confirm_password := "p1" }
      (fun _ => some "ghost2") "T" "ghost2").2.1 rfl,
   (C5_amended_missing_record_status_codes [] 1 sampleUser [] "ghost2"
      (fun s => s) { username := "ghost2", password := "p1", confirm_password := "p1" }
      (fun _ => some "ghost2") "T" "ghost2").2.2.1 rfl,
   (C5_amended_missing_record_status_codes [] 1 sampleUser [] "ghost2"
      (fun s => s) { username := "ghost2", password := "p1", confirm_password := "p1" }
      (fun _ => some "ghost2") "T" "ghost2").2.2.2 rfl rfl⟩

/-- C6: contact creation always attaches the new row to the requesting user,
and create, update and delete preserve the invariant that every stored contact
has a non-null owning user reference. -/
theorem C6_every_contact_owned (db : List ContactModel)
    (new_id contact_id : Nat) (body : ContactCreateSchema) (user : UserModel)
    (hdb : ContactsOwned db) :
    (ContactRepo.create db new_id body user).1.user_id = some user.id ∧
    ContactsOwned (ContactRepo.create db new_id body user).2 ∧
    ContactsOwned (ContactRepo.update db contact_id body user).2 ∧
    ContactsOwned (ContactRepo.delete db contact_id user).2 := by
  refine ⟨rfl, ?_, ?_, ?_⟩
  · intro c hc
    rcases List.mem_append.mp hc with h | h
    · exact hdb c h
    · rcases List.mem_singleton.mp h with rfl
      simp [ContactRepo.create]
  · cases hfind : db.find? (fun c => c.id == contact_id && ownedBy user c) with
    | none =>
      intro c hc
      simp only [ContactRepo.update, hfind] at hc
      exact hdb c hc
    | some c0 =>
      intro c hc
      simp only [ContactRepo.update, hfind] at hc
      rcases mem_updateFirst _ _ _ _ hc with h | ⟨x, _, rfl⟩
      · exact hdb c h
      · exact hdb c0 (List.mem_of_find?_eq_some hfind)
  · cases hfind : db.find? (fun c => c.id == contact_id && ownedBy user c) with
    | none =>
      intro c hc
      simp only [ContactRepo.delete, hfind] at hc
      exact hdb c hc
    | some c0 =>
      intro c hc
      simp only [ContactRepo.delete, hfind] at hc
      exact hdb c (mem_removeFirst _ _ _ hc)

/-- C6 instantiated: creating a contact for the sample user attaches it to that
user. -/
theorem C6_witness :
    (ContactRepo.create [sampleContact] 2 sampleBody sampleUser).1.user_id
      = some 1 :=
  (C6_every_contact_owned [sampleContact] 2 1 sampleBody sampleUser
    (by intro c hc; rcases List.mem_singleton.mp hc with rfl; simp [sampleContact])).1

/-- C7: `update_token` mutates the existing row of the user when one exists
(leaving the table length unchanged) and inserts a new row only when none
exists, so it preserves the invariant of at most one token row per user. -/
theorem C7_at_most_one_token_row (tokens : List TokenModel) (new_id : Nat)
    (user : UserModel) (rt : Option String) (h : AtMostOneTokenRow tokens) :
    AtMostOneTokenRow (UserRepo.update_token tokens new_id user rt) ∧
    ((tokens.find? (fun t => t.user_id == some user.id)).isSome = true →
      (UserRepo.update_token tokens new_id user rt).length = tokens.length) ∧
    (tokens.find? (fun t => t.user_id == some user.id) = none →
      UserRepo.update_token tokens new_id user rt
        = tokens ++ [{ id := new_id, refresh_token := rt, user_id := some user.id }]) := by
  refine ⟨?_, ?_, ?_⟩
  · intro uid
    cases hfind : tokens.find? (fun t => t.user_id == some user.id) with
    | none =>
      simp only [UserRepo.update_token, hfind]
      rw [List.filter_append]
      by_cases huid : user.id = uid
      · subst huid
        have hnil : tokens.filter (fun t => t.user_id == some user.id) = [] := by
          rw [List.filter_eq_nil_iff]
          exact List.find?_eq_none.mp hfind
        simp [hnil]
      · have hsingle : List.filter (fun t => t.user_id == some uid)
            [TokenModel.mk new_id rt (some user.id)] = [] := by
          simp [huid]
        rw [hsingle, List.append_nil]
        exact h uid
    | some t0 =>
      simp only [UserRepo.update_token, hfind]
      rw [filter_updateFirst_length (fun t => t.user_id == some uid)
        (fun t => t.user_id == some user.id)
        (fun t => { t with refresh_token := rt }) (fun x => rfl) tokens]
      exact h uid
  · intro hsome
    obtain ⟨t0, ht0⟩ := Option.isSome_iff_exists.mp hsome
    simp only [UserRepo.update_token, ht0]
    exact length_updateFirst _ _ tokens
  · intro hfind
    simp only [UserRepo.update_token, hfind]

/-- C7 instantiated: with no existing row, a fresh token row is inserted. -/
theorem C7_witness :
    UserRepo.update_token [] 7 sampleUser (some "R9")
      = [{ id := 7, refresh_token := some "R9", user_id := some 1 }] :=
  (C7_at_most_one_token_row [] 7 sampleUser (some "R9")
    (fun uid => by simp)).2.2 rfl

/-- C8: the repository birthday query equals the specification's description:
the user's contacts whose stored birthday lies between today and today plus
seven days inclusive, within the offset/limit window; consequently every
returned row is the user's and has a stored birthday in that range. -/
theorem C8_upcoming_birthday_window (db : List ContactModel)
    (limit offset today : Nat) (user : UserModel) :
    ContactRepo.get_upcoming_birthday db limit offset user today
      = upcomingBirthdaySpec db limit offset user today ∧
    ∀ c ∈ ContactRepo.get_upcoming_birthday db limit offset user today,
      c.user_id = some user.id ∧
      ∃ b, c.birthday = some b ∧ today ≤ b ∧ b ≤ today + 7 := by
  constructor
  · simp only [ContactRepo.get_upcoming_birthday, upcomingBirthdaySpec]
    congr 2
    apply List.filter_congr
    intro c _
    cases hb : c.birthday <;>
      simp [ownedBy, betweenDate, hb, Bool.decide_and]
  · intro c hc
    simp only [ContactRepo.get_upcoming_birthday] at hc
    have hp := prop_of_mem_window
      (fun c => ownedBy user c && betweenDate c.birthday today (today + 7))
      db limit offset c hc
    refine ⟨ownedBy_eq_true (bool_and_left hp), ?_⟩
    have hbet := bool_and_right hp
    cases hb : c.birthday with
    | none => rw [hb] at hbet; simp [betweenDate] at hbet
    | some b =>
      rw [hb] at hbet
      refine ⟨b, rfl, ?_, ?_⟩
      · exact of_decide_eq_true (bool_and_left hbet)
      · exact of_decide_eq_true (bool_and_right hbet)

/-- C8 instantiated: the sample contact with birthday five days out is returned
and characterised. -/
theorem C8_witness :
    sampleContact.user_id = some 1 ∧
    ∃ b, sampleContact.birthday = some b ∧ 95 ≤ b ∧ b ≤ 102 :=
  (C8_upcoming_birthday_window [sampleContact] 10 0 95 sampleUser).2
    sampleContact (by decide)

/-- C10: when no contact with the given id is owned by the requesting user, the
update and delete operations return `None` and leave the table unchanged. -/
theorem C10_not_found_changes_nothing (db : List ContactModel)
    (contact_id : Nat) (body : ContactCreateSchema) (user : UserModel)
    (h : ∀ c ∈ db, ¬(c.id = contact_id ∧ c.user_id = some user.id)) :
    ContactRepo.update db contact_id body user = (none, db) ∧
    ContactRepo.delete db contact_id user = (none, db) := by
  have hfind : db.find? (fun c => c.id == contact_id && ownedBy user c) = none := by
    rw [List.find?_eq_none]
    intro x hx hpx
    exact h x hx ⟨by simpa using bool_and_left hpx, ownedBy_eq_true (bool_and_right hpx)⟩
  constructor
  · simp [ContactRepo.update, hfind]
  · simp [ContactRepo.delete, hfind]

/-- C10 instantiated: an id owned by nobody changes nothing. -/
theorem C10_witness :
    ContactRepo.update [sampleContact] 99 sampleBody sampleUser
        = (none, [sampleContact]) ∧
    ContactRepo.delete [sampleContact] 99 sampleUser = (none, [sampleContact]) :=
  C10_not_found_changes_nothing [sampleContact] 99 sampleBody sampleUser
    (by decide)

end ContactsApp
